import Mathlib

/-!
Shallow embedding of the cfxws market-data client (src/cfxws/exchange.py).

The Python module defines an abstract `Exchange` base class with the key-map
helper `_key_map_to_standard`, and a `Binance` class holding the channel map,
the renewal period, the payload normaliser `_standardise_objects`, the frame
handler `_handle_response`, and the subscription-URL builders `listen_ticks`
and `listen_trades`.  Dynamic Python values are modelled by `PyVal`, raised
Python exceptions by `PyErr`, and every fallible operation returns
`Except PyErr _`.  The symbol catalog comes from the external ccxt library and
is therefore a parameter (`all_markets`); the `WSClient` transport consumed at
the end of the listen methods is outside the scope of the URL-construction and
normalisation claims.
-/

namespace Cfxws

/-- Python exceptions that the embedded code can raise, each carrying the
distinguishing datum: the bad-name for NameError, the missing key for
KeyError, and a short message otherwise. -/
inductive PyErr where
  | typeError (msg : String)
  | nameError (name : String)
  | keyError (key : String)
  | valueError (msg : String)

/-- Dynamic Python values moved around by the normaliser: JSON scalars,
datetime objects (carrying the epoch they were built from) and ordered
string-keyed dictionaries. -/
inductive PyVal where
  | none
  | bool (b : Bool)
  | num (q : Rat)
  | str (s : String)
  | datetime (epoch : Rat)
  | dict (entries : List (String × PyVal))

/-- Python dictionary subscript `d[k]`: the value at the first (unique) entry
with key `k`, a KeyError when the key is absent. -/
def dictGet (d : List (String × PyVal)) (k : String) : Except PyErr PyVal :=
  match d.find? (fun p => p.1 == k) with
  | some p => Except.ok p.2
  | Option.none => Except.error (PyErr.keyError k)

/-- Python dictionary assignment `d[k] = v`: overwrite in place when the key
exists (order preserved), otherwise append the new entry at the end. -/
def dictSet (d : List (String × PyVal)) (k : String) (v : PyVal) :
    List (String × PyVal) :=
  if d.any (fun p => p.1 == k) then
    d.map (fun p => if p.1 == k then (k, v) else p)
  else d ++ [(k, v)]

/-- ASCII lower-casing of one character, as Python str.lower acts on the
ASCII market symbols the code handles. -/
def lowerChar (c : Char) : Char :=
  if 65 ≤ c.toNat ∧ c.toNat ≤ 90 then Char.ofNat (c.toNat + 32) else c

/-- Python str.lower restricted to ASCII input. -/
def str_lower (s : String) : String := String.mk (s.data.map lowerChar)

/-- Whether the first list is an initial segment of the second. -/
def startsWithChars : List Char → List Char → Bool
  | [], _ => true
  | _ :: _, [] => false
  | p :: ps, c :: cs => p == c && startsWithChars ps cs

/-- Fuel-guarded worker for str.replace: each step consumes at least one
character of the string and one unit of fuel, so fuel equal to the string
length always suffices and the recursion is structural (kernel-reducible). -/
def replaceCharsFuel (pat rep : List Char) : Nat → List Char → List Char
  | _, [] => []
  | 0, s => s
  | Nat.succ n, c :: rest =>
    if 0 < pat.length ∧ startsWithChars pat (c :: rest) then
      rep ++ replaceCharsFuel pat rep n ((c :: rest).drop pat.length)
    else
      c :: replaceCharsFuel pat rep n rest

/-- Python str.replace on character lists: replace each non-overlapping
occurrence of `pat` by `rep`, scanning left to right.  The embedded code only
calls it with non-empty patterns. -/
def replaceChars (pat rep s : List Char) : List Char :=
  replaceCharsFuel pat rep s.length s

/-- Python str.replace. -/
def str_replace (s pat rep : String) : String :=
  String.mk (replaceChars pat.data rep.data s.data)

/-- Python datetime.datetime.fromtimestamp: accepts a number (bools are ints
in Python) and yields a datetime determined by that epoch value alone;
anything else raises TypeError. -/
def fromtimestamp (v : PyVal) : Except PyErr PyVal :=
  match v with
  | PyVal.num q => Except.ok (PyVal.datetime q)
  | PyVal.bool b => Except.ok (PyVal.datetime (if b then 1 else 0))
  | _ => Except.error (PyErr.typeError "fromtimestamp requires a number")

/-- Exchange._key_map_to_standard (exchange.py lines 14-18), modelled as a
Python function object applied to a positional-argument list.  Its parameters
are (self, keymap, tickdict); Python binds positional arguments left to right
and raises TypeError when fewer than three are supplied — which is how the
function is always invoked, as Exchange._key_map_to_standard(keymap, data).
The body runs, for key, value in keymap.values(): new_dict[value] =
tickdict[key].  Note that keymap.values() yields the VALUES of the map
(strings such as "timestamp"); unpacking a string into the pair key, value
succeeds only when the string has exactly two characters (ValueError
otherwise), and subscripting a non-dict raises TypeError. -/
def key_map_to_standard (args : List PyVal) : Except PyErr PyVal :=
  match args with
  | [_self, keymap, tickdict] => do
    let vals ← match keymap with
      | PyVal.dict entries => Except.ok (entries.map (fun p => p.2))
      | _ => Except.error (PyErr.typeError "values requires a dict")
    let new_dict ← vals.foldlM (fun acc v => do
      let s ← match v with
        | PyVal.str s => Except.ok s
        | _ => Except.error (PyErr.typeError "cannot unpack non-iterable")
      let kv ← match s.data with
        | [k, val] => Except.ok (k, val)
        | _ => Except.error (PyErr.valueError "values to unpack")
      let item ← match tickdict with
        | PyVal.dict entries => dictGet entries (String.mk [kv.1])
        | _ => Except.error (PyErr.typeError "object is not subscriptable")
      Except.ok (dictSet acc (String.mk [kv.2]) item))
      ([] : List (String × PyVal))
    Except.ok (PyVal.dict new_dict)
  | _ =>
    Except.error
      (PyErr.typeError "key_map_to_standard missing required positional argument")

/-- The tick key map literal of the tick branch (exchange.py 97-102). -/
def tick_keymap : PyVal :=
  PyVal.dict
    [("E", PyVal.str "timestamp"), ("b", PyVal.str "bid"),
     ("a", PyVal.str "ask"), ("s", PyVal.str "symbol")]

/-- The trade key map literal of the trade branch (exchange.py 111-119). -/
def trade_keymap : PyVal :=
  PyVal.dict
    [("E", PyVal.str "timestamp"), ("t", PyVal.str "trade_id"),
     ("p", PyVal.str "price"), ("q", PyVal.str "quantity"),
     ("T", PyVal.str "trade_time"), ("m", PyVal.str "market_maker"),
     ("s", PyVal.str "symbol")]

/-- Binance._standardise_objects (exchange.py 95-130).  Both recognised
branches call the helper as Exchange._key_map_to_standard(keymap, data) —
two positional arguments for a three-parameter function — and, further on,
assign new_tick_dict["original"] from the name tickdict (resp. tradedict),
which is bound nowhere in the method (the parameter is data): a NameError.
The embedding keeps every statement in source order. -/
def standardise_objects (ty : String) (data : PyVal) : Except PyErr PyVal :=
  if ty == "tick" then do
    let ntd ← key_map_to_standard [tick_keymap, data]
    let entries ← match ntd with
      | PyVal.dict es => Except.ok es
      | _ => Except.error (PyErr.typeError "not a dict")
    let ts ← dictGet entries "timestamp"
    let dt ← fromtimestamp ts
    let entries := dictSet entries "datetime" dt
    let _ := entries
    Except.error (PyErr.nameError "tickdict")
  else if ty == "trade" then do
    let ntd ← key_map_to_standard [trade_keymap, data]
    let entries ← match ntd with
      | PyVal.dict es => Except.ok es
      | _ => Except.error (PyErr.typeError "not a dict")
    let tt ← dictGet entries "trade_time"
    let dt ← fromtimestamp tt
    let entries := dictSet entries "datetime" dt
    let _ := entries
    Except.error (PyErr.nameError "tradedict")
  else
    Except.error (PyErr.valueError "invalid object type")

/-- Binance._handle_response (exchange.py 132-136).  The body is the single
statement return _standardise_object(type, data = json.loads(response)["data"]).
Python evaluates the callee expression first, and _standardise_object is an
unbound name (the method is self._standardise_objects), so every call raises
NameError before the response text is even decoded. -/
def handle_response (ty : String) (response : String) : Except PyErr PyVal :=
  let _ := ty
  let _ := response
  Except.error (PyErr.nameError "_standardise_object")

/-- The websocket base URI set in Binance.__init__ (exchange.py 78). -/
def wssuri : String := "wss://stream.binance.com:9443"

/-- The channel template map set in Binance.__init__ (exchange.py 80-86). -/
def channel_map : List (String × String) :=
  [("listen_all_ticker", "!ticker@arr"),
   ("listen_ticker", "<symbol>@ticker"),
   ("listen_trade", "<symbol>@trade"),
   ("listen_agg_trade", "<symbol>@aggTrade"),
   ("candles", "<symbol>@kline_<interval>")]

/-- Subscript access self.channel_map[k]: KeyError when absent. -/
def channelMapGet (k : String) : Except PyErr String :=
  match channel_map.find? (fun p => p.1 == k) with
  | some p => Except.ok p.2
  | Option.none => Except.error (PyErr.keyError k)

/-- The renewal period set in Binance.__init__ (exchange.py 90), in seconds. -/
def renew_period_s : Nat := 43200

/-- The symbol catalog built in Binance.__init__ (exchange.py 74-75) from the
keys of the external ccxt market dictionary, here a parameter:
all_markets = [x.lower().replace("/", "") for x in tmp_markets.keys()]. -/
def all_markets_of (marketKeys : List String) : List String :=
  marketKeys.map (fun x => str_replace (str_lower x) "/" "")

/-- Binance.listen_ticks (exchange.py 139-196) up to the subscription URL it
hands to the external WSClient transport.  Statements in source order:
if not pairs: pairs = self.all_markets — both None and the empty list are
falsy; the else branch evaluates isinstance(list, pairs) whose second argument
must be a type, so a (non-empty) list there raises TypeError.  The channel
comprehension subscripts self.channel_map["listen_ticks"] — a key the map does
not have ("listen_ticker" is the key), hence a KeyError on the first
iteration; its replace argument x is an unbound name besides.  The URL is the
combined-stream prefix plus channel + "/" for each channel; the following
stream_url[:-1] expression is evaluated and its value discarded, so the
trailing slash stays.  The final if pairs is None: guard compares the local
pairs, which the first statement always rebound to a list, so the
all-tickers branch is unreachable. -/
def listen_ticks_url (all_markets : List String) (pairs0 : Option (List String)) :
    Except PyErr String := do
  let pairs ← match pairs0 with
    | Option.none => Except.ok all_markets
    | some [] => Except.ok all_markets
    | some (_ :: _) =>
      Except.error (PyErr.typeError "isinstance arg 2 must be a type")
  let channels ← pairs.mapM (fun _pair => do
    let tmpl ← channelMapGet "listen_ticks"
    let _ := tmpl
    (Except.error (PyErr.nameError "x") : Except PyErr String))
  let stream_url :=
    channels.foldl (fun acc c => acc ++ (c ++ "/")) (wssuri ++ "/stream?streams=")
  let pairsIsNone := false
  let stream_url :=
    if pairsIsNone then wssuri ++ "/stream?streams=" ++ "!ticker@arr"
    else stream_url
  Except.ok stream_url

/-- Binance.listen_trades (exchange.py 198-243) up to the subscription URL it
hands to the external WSClient transport.  Statements in source order:
if not pairs: pairs = self.all_markets — both None and the empty list are
falsy; the else branch checks isinstance(pairs, list), which holds for the
list inputs modelled here.  Channels substitute each pair into
self.channel_map["listen_trade"]; the URL is the combined-stream prefix plus
channel + "/" for each channel, and the stream_url[:-1] expression is again
evaluated and discarded, leaving the trailing slash. -/
def listen_trades_url (all_markets : List String) (pairs0 : Option (List String)) :
    Except PyErr String := do
  let pairs ← match pairs0 with
    | Option.none => Except.ok all_markets
    | some [] => Except.ok all_markets
    | some (p :: ps) => Except.ok (p :: ps)
  let channels ← pairs.mapM (fun pair => do
    let tmpl ← channelMapGet "listen_trade"
    Except.ok (str_replace tmpl "<symbol>" pair))
  let stream_url :=
    channels.foldl (fun acc c => acc ++ (c ++ "/")) (wssuri ++ "/stream?streams=")
  Except.ok stream_url

/-- Closed form of the trade-subscription URL listen_trades builds for a
given pair list: the combined-stream prefix followed by each substituted
trade channel and a slash. -/
def trades_url (pairs : List String) : String :=
  (pairs.map (fun pair => str_replace "<symbol>@trade" "<symbol>" pair)).foldl
    (fun acc c => acc ++ (c ++ "/")) (wssuri ++ "/stream?streams=")

/-- The raw Tick payload of the specification example:
E 1000, b 0.05, a 0.051, s "BTCETH". -/
def exampleTickRaw : PyVal :=
  PyVal.dict
    [("E", PyVal.num 1000), ("b", PyVal.num 0.05),
     ("a", PyVal.num 0.051), ("s", PyVal.str "BTCETH")]

/-- A raw Tick payload missing the required bid field "b". -/
def tickMissingBid : PyVal :=
  PyVal.dict
    [("E", PyVal.num 1000), ("a", PyVal.num 0.051), ("s", PyVal.str "BTCETH")]

/-- A raw Trade payload missing the required price field "p". -/
def tradeMissingPrice : PyVal :=
  PyVal.dict
    [("E", PyVal.num 1000), ("t", PyVal.num 42), ("q", PyVal.num 1),
     ("T", PyVal.num 1001), ("m", PyVal.bool false), ("s", PyVal.str "BTCETH")]

/-- A raw Trade payload with every required field present. -/
def tradeComplete : PyVal :=
  PyVal.dict
    [("E", PyVal.num 1000), ("t", PyVal.num 42), ("p", PyVal.num 0.1),
     ("q", PyVal.num 1), ("T", PyVal.num 1001), ("m", PyVal.bool false),
     ("s", PyVal.str "BTCETH")]

/-- Mapping the trade-channel template over any pair list never fails: the
channel-map lookup of "listen_trade" succeeds, so the traversal returns the
substituted channel names. -/
theorem trades_mapM_ok (pairs : List String) :
    pairs.mapM (fun pair => do
      let tmpl ← channelMapGet "listen_trade"
      Except.ok (str_replace tmpl "<symbol>" pair)) =
    (Except.ok (pairs.map (fun pair => str_replace "<symbol>@trade" "<symbol>" pair))
      : Except PyErr (List String)) := by
  induction pairs with
  | nil => rfl
  | cons p ps ih => simp only [List.mapM_cons, List.map_cons, ih]; rfl

/-- With an empty pair list, listen_trades defaults to the full catalog and
returns the full-catalog combined-stream URL. -/
theorem trades_empty_ok (am : List String) :
    listen_trades_url am (some []) = Except.ok (trades_url am) := by
  show (do
    let channels ← am.mapM (fun pair => do
      let tmpl ← channelMapGet "listen_trade"
      Except.ok (str_replace tmpl "<symbol>" pair))
    let stream_url :=
      channels.foldl (fun acc c => acc ++ (c ++ "/")) (wssuri ++ "/stream?streams=")
    Except.ok stream_url) = Except.ok (trades_url am)
  rw [trades_mapM_ok]
  rfl

end Cfxws

open Cfxws

/-- C1: the spec example says normalising the raw Tick payload
E 1000, b 0.05, a 0.051, s "BTCETH" yields the standard record with symbol,
timestamp, bid, ask, derived datetime, exchange and original.  The code
instead raises TypeError on this very payload: the tick branch calls the
three-parameter helper Exchange._key_map_to_standard with only two positional
arguments, so no record is ever built. -/
theorem C1_tick_example_raises_TypeError :
    standardise_objects "tick" exampleTickRaw =
      Except.error
        (PyErr.typeError "key_map_to_standard missing required positional argument") :=
  rfl

/-- C2: the claim says a Tick subscription over the full catalog (pairs
omitted) builds the single all-tickers aggregate URL using !ticker@arr.  The
code never does: with a non-empty catalog the channel comprehension raises
KeyError because it subscripts channel_map with "listen_ticks" (the key is
"listen_ticker"), and even with an empty catalog the result is the bare
combined-stream prefix — the aggregate branch is guarded by pairs is None,
which is always false after pairs was rebound to the catalog list. -/
theorem C2_full_catalog_tick_never_aggregate :
    (∀ (m : String) (ms : List String),
      listen_ticks_url (m :: ms) Option.none =
        Except.error (PyErr.keyError "listen_ticks")) ∧
    listen_ticks_url [] Option.none =
      Except.ok "wss://stream.binance.com:9443/stream?streams=" :=
  ⟨fun _ _ => rfl, rfl⟩

/-- C3: the claim says listen_trades with pairs btceth, btcada builds exactly
base/stream?streams=btceth@trade/btcada@trade with no extra characters.  The
code builds that URL with a trailing slash, because the stripping expression
stream_url[:-1] is evaluated but its value discarded. -/
theorem C3_trades_url_keeps_trailing_slash :
    ∀ am : List String,
      listen_trades_url am (some ["btceth", "btcada"]) =
        Except.ok
          "wss://stream.binance.com:9443/stream?streams=btceth@trade/btcada@trade/" :=
  fun _ => rfl

/-- C4: the claim says a raw message missing a required field fails with
MalformedPayload and no partial record.  The code indeed produces no record,
but the failure is a TypeError from the miscalled helper, raised before any
field of the payload is examined — the complete trade payload fails with the
very same TypeError as the deficient ones, so no per-field validation ever
runs and no MalformedPayload error exists in the code. -/
theorem C4_missing_field_raises_TypeError_before_any_field_check :
    standardise_objects "tick" tickMissingBid =
      Except.error
        (PyErr.typeError "key_map_to_standard missing required positional argument") ∧
    standardise_objects "trade" tradeMissingPrice =
      Except.error
        (PyErr.typeError "key_map_to_standard missing required positional argument") ∧
    standardise_objects "trade" tradeComplete =
      Except.error
        (PyErr.typeError "key_map_to_standard missing required positional argument") :=
  ⟨rfl, rfl, rfl⟩

/-- C5: the claim says _handle_response decodes the frame, unwraps the
combined-stream envelope via its data member and returns the normalised
event.  The code raises NameError on every frame: the body calls
_standardise_object, a name bound nowhere (the method is
self._standardise_objects), and the callee is evaluated before the JSON text
is decoded. -/
theorem C5_handle_response_always_NameError :
    ∀ (ty response : String),
      handle_response ty response =
        Except.error (PyErr.nameError "_standardise_object") :=
  fun _ _ => rfl

/-- C6: the claim says the datetime of every successfully normalised event is
derived from the canonical epoch field of the payload.  The derivation lines
do read the mapped timestamp and trade_time fields, but they are unreachable:
normalisation fails on every input for every kind string, so no event is ever
successfully normalised and no datetime is ever produced. -/
theorem C6_no_normalisation_ever_succeeds :
    ∀ (ty : String) (data : PyVal),
      ∃ e, standardise_objects ty data = Except.error e := by
  intro ty data
  unfold standardise_objects
  split
  · exact ⟨_, rfl⟩
  · split
    · exact ⟨_, rfl⟩
    · exact ⟨_, rfl⟩

/-- C7 counterexample: the claim says an empty symbol set makes URL
construction fail with EmptySymbolSet.  With catalog btceth, btcada and the
empty pair list, listen_trades raises no error at all: it silently subscribes
to the full catalog. -/
theorem C7_counterexample_empty_pairs_no_error :
    listen_trades_url ["btceth", "btcada"] (some []) =
      Except.ok
        "wss://stream.binance.com:9443/stream?streams=btceth@trade/btcada@trade/" :=
  rfl

/-- C7 amended: an empty symbol list raises no EmptySymbolSet error — it is
falsy, so both listen methods default it to the full catalog; listen_trades
then builds the full-catalog combined-stream URL, while listen_ticks goes on
to fail with KeyError "listen_ticks" for any non-empty catalog because of its
wrong channel-map key. -/
theorem C7_empty_pairs_default_to_full_catalog :
    (∀ am : List String,
      listen_trades_url am (some []) = Except.ok (trades_url am)) ∧
    (∀ (m : String) (ms : List String),
      listen_ticks_url (m :: ms) (some []) =
        Except.error (PyErr.keyError "listen_ticks")) :=
  ⟨trades_empty_ok, fun _ _ => rfl⟩

/-- C8: every symbol of the catalog built at construction time comes from
some native market key by lower-casing it and stripping the "/" separator. -/
theorem C8_catalog_symbols_lowercased_and_stripped :
    ∀ (keys : List String) (s : String),
      s ∈ all_markets_of keys →
        ∃ x, x ∈ keys ∧ s = str_replace (str_lower x) "/" "" := by
  intro keys s hs
  simp only [all_markets_of, List.mem_map] at hs
  obtain ⟨x, hx, rfl⟩ := hs
  exact ⟨x, hx, rfl⟩

/-- C8 witness: the catalog built from the single native key BTC/ETH contains
btceth, and the theorem recovers the key it was produced from. -/
theorem C8_witness :
    ∃ x, x ∈ ["BTC/ETH"] ∧ "btceth" = str_replace (str_lower x) "/" "" :=
  C8_catalog_symbols_lowercased_and_stripped ["BTC/ETH"] "btceth" (by decide)

/-- C9: the renewal period configured at construction is 43200 seconds,
exactly half the 24-hour (86400 second) connection-lifetime ceiling. -/
theorem C9_renew_period_is_half_of_24h :
    renew_period_s = 43200 ∧ 2 * renew_period_s = 24 * 60 * 60 := by
  decide

/-- C10: at the public interface an empty pair list behaves identically to
None in both listen methods — the falsiness test defaults both to the full
catalog, so for every catalog the two calls produce the same outcome (the
same URL in listen_trades, the same KeyError in listen_ticks). -/
theorem C10_empty_list_equals_none :
    ∀ am : List String,
      listen_ticks_url am (some []) = listen_ticks_url am Option.none ∧
      listen_trades_url am (some []) = listen_trades_url am Option.none :=
  fun _ => ⟨rfl, rfl⟩
